import Mathlib

/-!
Shallow embedding of `src/zanzocam/webcam/webcam/camera.py` (module `webcam.camera`),
with theorems checking the natural-language specification's claims about it.

Modelling conventions:
* Python floats are modelled by exact rationals (`ℚ`); Python ints by `ℤ`/`ℕ`.
* Python `int(x)` truncates toward zero; this is `pyInt` below.
* A Python function that can raise an uncaught exception is modelled with
  `Except String`; the string names the Python exception class.
* Capture-device behaviour (the luminance measured by each capture) is an
  oracle `lum : ℕ → ℚ`, so theorems quantify over every device behaviour.
-/

/-- Python `int(q)` on a real/float value: truncation toward zero
(`int(-1.5) = -1`, `int(1.9) = 1`). -/
def pyInt (q : ℚ) : ℤ := if 0 ≤ q then ⌊q⌋ else -⌊-q⌋

/-- camera.py line 19: minimum luminance for the daytime. -/
def MINIMUM_DAYLIGHT_LUMINANCE : ℚ := 60

/-- camera.py line 25: default parameter A of the luminance/shutter-speed curve. -/
def LUM_SPEED_PARAM_A : ℤ := 600000

/-- camera.py line 26: default parameter B of the luminance/shutter-speed curve. -/
def LUM_SPEED_PARAM_B : ℤ := 60000

/-- camera.py line 30: `MIN_SHUTTER_SPEED = int(0.03 * 10**6)`. -/
def MIN_SHUTTER_SPEED : ℕ := 30000

/-- camera.py line 31: `MAX_SHUTTER_SPEED = int(3 * 10**6)`. -/
def MAX_SHUTTER_SPEED : ℕ := 3000000

/-- camera.py line 32: acceptance margin of the calibration search. -/
def TARGET_LUMINOSITY_MARGIN : ℚ := 1

/-- camera.py lines 42-43:
`lambda lum, a, b: int(((a/lum) + b)) if lum < MINIMUM_DAYLIGHT_LUMINANCE else None`.
The conditional expression evaluates its condition first; when `lum < 60`
the division `a/lum` is evaluated, and Python raises `ZeroDivisionError` if
`lum == 0.0` (that division is not guarded anywhere in camera.py). When
`lum ≥ 60` the lambda returns `None` without dividing. -/
def SHUTTER_SPEED_FROM_LUMINANCE (lum : ℚ) (a b : ℤ) : Except String (Option ℤ) :=
  if lum < MINIMUM_DAYLIGHT_LUMINANCE then
    if lum = 0 then .error "ZeroDivisionError"
    else .ok (some (pyInt ((a : ℚ) / lum + (b : ℚ))))
  else .ok none

/-- camera.py lines 56-57:
`lambda lum: lum if lum > 60 else lum+30 if lum < 30 else (lum/2) + 45`. -/
def TARGET_LUMINANCE (lum : ℚ) : ℚ :=
  if MINIMUM_DAYLIGHT_LUMINANCE < lum then lum
  else if lum < 30 then lum + 30
  else lum / 2 + 45

/-- The calibration constants that `SHUTTER_SPEED_FROM_PICTURE` (camera.py
lines 61-62) actually reads after `Camera.__init__` has processed a calibration
override file whose first line parsed as the pair `overrideFile`.

In camera.py line 113 the tuple assignment
`LUM_SPEED_PARAM_A, LUM_SPEED_PARAM_B = calib.readlines()[0].split(" ")`
occurs inside the method body with no `global` statement, so it only binds two
method-local names (which the log call on line 114 then prints); the
module-level constants used by the lambda on line 62 are left untouched.
Hence this function ignores its argument and returns the defaults. -/
def lumSpeedParamsUsed (_overrideFile : Option (ℤ × ℤ)) : ℤ × ℤ :=
  (LUM_SPEED_PARAM_A, LUM_SPEED_PARAM_B)

/-- camera.py lines 61-62: shutter speed from a low-light picture, using the
module-level constants (see `lumSpeedParamsUsed`), with the picture summarised
by its luminance. -/
def SHUTTER_SPEED_FROM_PICTURE (overrideFile : Option (ℤ × ℤ)) (lum : ℚ) :
    Except String (Option ℤ) :=
  SHUTTER_SPEED_FROM_LUMINANCE lum (lumSpeedParamsUsed overrideFile).1
    (lumSpeedParamsUsed overrideFile).2

/-- C1: the claim says the constants consumed by the shutter-speed formula are
the ones read from the calibration override file. The code contradicts this
(and its own log message on camera.py line 114): with override file "100 200"
and first-shot luminance 30, the formula still consumes the defaults
A=600000, B=60000 and yields 80000 µs, not the 203 µs the overridden constants
would give. -/
theorem override_params_not_consumed :
    lumSpeedParamsUsed (some (100, 200)) = (600000, 60000) ∧
    SHUTTER_SPEED_FROM_PICTURE (some (100, 200)) 30 = .ok (some 80000) ∧
    SHUTTER_SPEED_FROM_LUMINANCE 30 100 200 = .ok (some 203) := by
  refine ⟨rfl, ?_, ?_⟩ <;>
    norm_num [SHUTTER_SPEED_FROM_PICTURE, SHUTTER_SPEED_FROM_LUMINANCE,
      lumSpeedParamsUsed, LUM_SPEED_PARAM_A, LUM_SPEED_PARAM_B,
      MINIMUM_DAYLIGHT_LUMINANCE, pyInt]

/-- C4 counterexample: `TARGET_LUMINANCE` is not monotonically non-decreasing
(hence not continuous) across 60: it maps 60 to 75 but 61 to 61. -/
theorem target_luminance_jump_at_60 :
    TARGET_LUMINANCE 60 = 75 ∧ TARGET_LUMINANCE 61 = 61 ∧
    (60 : ℚ) ≤ 61 ∧ TARGET_LUMINANCE 61 < TARGET_LUMINANCE 60 := by
  norm_num [TARGET_LUMINANCE, MINIMUM_DAYLIGHT_LUMINANCE]

/-- C4 (amended): `TARGET_LUMINANCE` maps `lum` to `lum` for `lum > 60`, to
`lum + 30` for `lum < 30`, and to `lum/2 + 45` otherwise; on `[0, 60]` it is
monotonically non-decreasing and 1-Lipschitz (hence continuous there), but the
curve has a downward jump at 60; the boundary values are
`TARGET_LUMINANCE 29 = 59`, `TARGET_LUMINANCE 30 = 60`,
`TARGET_LUMINANCE 61 = 61`. -/
theorem target_luminance_piecewise_monotone_below_60 :
    (∀ lum : ℚ, 60 < lum → TARGET_LUMINANCE lum = lum) ∧
    (∀ lum : ℚ, lum < 30 → TARGET_LUMINANCE lum = lum + 30) ∧
    (∀ lum : ℚ, 30 ≤ lum → lum ≤ 60 → TARGET_LUMINANCE lum = lum / 2 + 45) ∧
    (∀ a b : ℚ, 0 ≤ a → a ≤ b → b ≤ 60 →
      TARGET_LUMINANCE a ≤ TARGET_LUMINANCE b) ∧
    (∀ a b : ℚ, 0 ≤ a → a ≤ b → b ≤ 60 →
      TARGET_LUMINANCE b - TARGET_LUMINANCE a ≤ b - a) ∧
    TARGET_LUMINANCE 29 = 59 ∧ TARGET_LUMINANCE 30 = 60 ∧
    TARGET_LUMINANCE 61 = 61 := by
  refine ⟨?_, ?_, ?_, ?_, ?_, by norm_num [TARGET_LUMINANCE, MINIMUM_DAYLIGHT_LUMINANCE],
    by norm_num [TARGET_LUMINANCE, MINIMUM_DAYLIGHT_LUMINANCE],
    by norm_num [TARGET_LUMINANCE, MINIMUM_DAYLIGHT_LUMINANCE]⟩ <;>
      unfold TARGET_LUMINANCE MINIMUM_DAYLIGHT_LUMINANCE
  · intro lum h; rw [if_pos h]
  · intro lum h; rw [if_neg (by linarith), if_pos h]
  · intro lum h h2; rw [if_neg (by linarith), if_neg (by linarith)]
  · intro a b h0 hab hb60; split_ifs <;> linarith
  · intro a b h0 hab hb60; split_ifs <;> linarith

/-- C4 witness: concrete instances of `target_luminance_piecewise_monotone_below_60`. -/
theorem target_luminance_witness :
    TARGET_LUMINANCE 70 = 70 ∧ TARGET_LUMINANCE 10 = 40 ∧
    TARGET_LUMINANCE 40 = 65 ∧ TARGET_LUMINANCE 0 ≤ TARGET_LUMINANCE 60 ∧
    TARGET_LUMINANCE 60 - TARGET_LUMINANCE 0 ≤ 60 - 0 := by
  obtain ⟨h1, h2, h3, h4, h5, -⟩ := target_luminance_piecewise_monotone_below_60
  refine ⟨h1 70 (by norm_num), ?_, ?_, h4 0 60 le_rfl (by norm_num) le_rfl,
    h5 0 60 le_rfl (by norm_num) le_rfl⟩
  · rw [h2 10 (by norm_num)]; norm_num
  · rw [h3 40 (by norm_num) (by norm_num)]; norm_num

/-- C5 counterexample: the code truncates with `int()`, it does not round.
At luminance 9 with the default constants the formula value is
600000/9 + 60000 = 126666.66…; the code returns 126666 while rounding would
give 126667. -/
theorem shutter_speed_not_round :
    SHUTTER_SPEED_FROM_LUMINANCE 9 600000 60000 = .ok (some 126666) ∧
    round ((600000 : ℚ) / 9 + 60000) = 126667 ∧ (126666 : ℤ) ≠ 126667 := by
  refine ⟨?_, ?_, by decide⟩
  · norm_num [SHUTTER_SPEED_FROM_LUMINANCE, MINIMUM_DAYLIGHT_LUMINANCE, pyInt]
  · norm_num [round_eq]

/-- Helper: for positive operands `pyInt` is the floor. -/
theorem pyInt_eq_floor_of_nonneg {q : ℚ} (h : 0 ≤ q) : pyInt q = ⌊q⌋ := by
  simp [pyInt, h]

/-- Helper: the value of `SHUTTER_SPEED_FROM_LUMINANCE` for `0 < lum < 60`
and non-negative constants, as a floor. -/
theorem shutter_speed_eq_floor {a b : ℤ} {lum : ℚ} (ha : 0 ≤ a) (hb : 0 ≤ b)
    (h0 : 0 < lum) (h60 : lum < 60) :
    SHUTTER_SPEED_FROM_LUMINANCE lum a b = .ok (some ⌊(a : ℚ) / lum + (b : ℚ)⌋) := by
  have hq : (0 : ℚ) ≤ (a : ℚ) / lum + (b : ℚ) :=
    add_nonneg (div_nonneg (by exact_mod_cast ha) h0.le) (by exact_mod_cast hb)
  rw [SHUTTER_SPEED_FROM_LUMINANCE, if_pos (by rw [MINIMUM_DAYLIGHT_LUMINANCE]; exact h60),
    if_neg h0.ne', pyInt_eq_floor_of_nonneg hq]

/-- C5 (amended): for `0 < lum < 60` the code returns `int(A/lum + B)` with
`int` truncating toward zero (the floor, for these positive values) — not
`round`; with the defaults A=600000, B=60000 the returned speed is
non-increasing in `lum` on `(0, 60)` and strictly decreasing over the integer
luminances 1..59; for `lum ≥ 60` it returns `None`. -/
theorem shutter_speed_truncation_antitone :
    (∀ (a b : ℤ) (lum : ℚ), 0 ≤ a → 0 ≤ b → 0 < lum → lum < 60 →
      SHUTTER_SPEED_FROM_LUMINANCE lum a b = .ok (some ⌊(a : ℚ) / lum + (b : ℚ)⌋)) ∧
    (∀ l₁ l₂ : ℚ, 0 < l₁ → l₁ ≤ l₂ → l₂ < 60 →
      ∃ s₁ s₂ : ℤ, SHUTTER_SPEED_FROM_LUMINANCE l₁ 600000 60000 = .ok (some s₁) ∧
        SHUTTER_SPEED_FROM_LUMINANCE l₂ 600000 60000 = .ok (some s₂) ∧ s₂ ≤ s₁) ∧
    (∀ n : ℕ, 1 ≤ n → n ≤ 58 →
      ∃ s₁ s₂ : ℤ, SHUTTER_SPEED_FROM_LUMINANCE (n : ℚ) 600000 60000 = .ok (some s₁) ∧
        SHUTTER_SPEED_FROM_LUMINANCE ((n : ℚ) + 1) 600000 60000 = .ok (some s₂) ∧
        s₂ < s₁) ∧
    (∀ (a b : ℤ) (lum : ℚ), 60 ≤ lum →
      SHUTTER_SPEED_FROM_LUMINANCE lum a b = .ok none) := by
  refine ⟨fun a b lum ha hb h0 h60 => shutter_speed_eq_floor ha hb h0 h60, ?_, ?_, ?_⟩
  · intro l₁ l₂ h1 h12 h260
    have h2 : (0 : ℚ) < l₂ := lt_of_lt_of_le h1 h12
    refine ⟨_, _, shutter_speed_eq_floor (by norm_num) (by norm_num) h1 (lt_of_le_of_lt h12 h260),
      shutter_speed_eq_floor (by norm_num) (by norm_num) h2 h260, ?_⟩
    have hdiv : (600000 : ℚ) / l₂ ≤ 600000 / l₁ :=
      div_le_div_of_nonneg_left (by norm_num) h1 h12
    exact Int.floor_le_floor (by push_cast; linarith)
  · intro n h1 h58
    have hn0 : (0 : ℚ) < (n : ℚ) := by exact_mod_cast h1
    have hn58 : (n : ℚ) ≤ 58 := by exact_mod_cast h58
    refine ⟨_, _, shutter_speed_eq_floor (by norm_num) (by norm_num) hn0 (by linarith),
      shutter_speed_eq_floor (by norm_num) (by norm_num) (by linarith) (by linarith), ?_⟩
    have key : (600000 : ℚ) / ((n : ℚ) + 1) + 1 ≤ 600000 / (n : ℚ) := by
      rw [div_add' _ _ _ (by positivity), div_le_div_iff₀ (by positivity) (by positivity)]
      nlinarith
    have step : ((600000 : ℤ) : ℚ) / ((n : ℚ) + 1) + ((60000 : ℤ) : ℚ) ≤
        ((600000 : ℤ) : ℚ) / (n : ℚ) + ((60000 : ℤ) : ℚ) - 1 := by push_cast; linarith
    calc ⌊((600000 : ℤ) : ℚ) / ((n : ℚ) + 1) + ((60000 : ℤ) : ℚ)⌋
        ≤ ⌊((600000 : ℤ) : ℚ) / (n : ℚ) + ((60000 : ℤ) : ℚ) - 1⌋ := Int.floor_le_floor step
      _ = ⌊((600000 : ℤ) : ℚ) / (n : ℚ) + ((60000 : ℤ) : ℚ)⌋ - 1 := by
          rw [show ((1 : ℚ)) = ((1 : ℤ) : ℚ) by norm_num, Int.floor_sub_int]
      _ < ⌊((600000 : ℤ) : ℚ) / (n : ℚ) + ((60000 : ℤ) : ℚ)⌋ := by omega
  · intro a b lum h
    rw [SHUTTER_SPEED_FROM_LUMINANCE, if_neg (by rw [MINIMUM_DAYLIGHT_LUMINANCE]; linarith)]

/-- C5 witness: concrete instances of `shutter_speed_truncation_antitone`. -/
theorem shutter_speed_witness :
    SHUTTER_SPEED_FROM_LUMINANCE 2 600000 60000 = .ok (some 360000) ∧
    SHUTTER_SPEED_FROM_LUMINANCE 100 600000 60000 = .ok none := by
  obtain ⟨h1, -, -, h4⟩ := shutter_speed_truncation_antitone
  refine ⟨?_, h4 600000 60000 100 (by norm_num)⟩
  rw [h1 600000 60000 2 (by norm_num) (by norm_num) (by norm_num) (by norm_num)]
  norm_num

/-- camera.py lines 189-190: the acceptance test of a calibration attempt,
`new_luminance >= target - MARGIN and new_luminance <= target + MARGIN`. -/
def inMargin (tgt newLum : ℚ) : Prop :=
  tgt - TARGET_LUMINOSITY_MARGIN ≤ newLum ∧ newLum ≤ tgt + TARGET_LUMINOSITY_MARGIN

instance (tgt newLum : ℚ) : Decidable (inMargin tgt newLum) :=
  inferInstanceAs (Decidable (_ ≤ _ ∧ _ ≤ _))

/-- camera.py lines 197-203: the bounds update of one failed calibration
attempt. Too dark (`new_luminance < target - MARGIN`) raises the lower bound
to the midpoint, otherwise (too bright) the upper bound drops to the midpoint.
The midpoint `int((min_speed + max_speed) / 2)` is Nat division by 2, since
both bounds are positive and far below 2^53 (float division is exact up to a
possible .5, and `int()` truncates it). -/
def calibNext (tgt newLum : ℚ) (mn mx : ℕ) : ℕ × ℕ :=
  if newLum < tgt - TARGET_LUMINOSITY_MARGIN then ((mn + mx) / 2, mx)
  else (mn, (mn + mx) / 2)

/-- camera.py lines 180-208: the calibration `while True` loop, given the
luminance `lum i` that the device produces at loop iteration `i` (0-based).
Returns the list of attempted shutter speeds (one capture per iteration), or
`none` if `fuel` iterations were not enough — the termination theorem shows
`fuel = 20` always suffices from the initial bounds. An iteration breaks out
with the current midpoint speed if the measured luminance is within the
margin, or if after the bounds update `min_speed + 5 > max_speed`. -/
def calibLoop (lum : ℕ → ℚ) (tgt : ℚ) : ℕ → ℕ → ℕ → ℕ → Option (List ℕ)
  | 0, _, _, _ => none
  | fuel + 1, i, mn, mx =>
    if inMargin tgt (lum i) then some [(mn + mx) / 2]
    else if (calibNext tgt (lum i) mn mx).1 + 5 > (calibNext tgt (lum i) mn mx).2 then
      some [(mn + mx) / 2]
    else
      (calibLoop lum tgt fuel (i + 1) (calibNext tgt (lum i) mn mx).1
        (calibNext tgt (lum i) mn mx).2).map ((mn + mx) / 2 :: ·)

/-- The `(min_speed, max_speed)` bounds held by the calibration loop of
camera.py lines 180-208 after `k` completed iterations, when the loop is still
running at that point (`none` once the loop has stopped, by margin success or
by the `min_speed + 5 > max_speed` exit of line 206). Iteration `k` reads
luminance `lum k`. -/
def calibRunning (lum : ℕ → ℚ) (tgt : ℚ) : ℕ → Option (ℕ × ℕ)
  | 0 => some (MIN_SHUTTER_SPEED, MAX_SHUTTER_SPEED)
  | k + 1 =>
    match calibRunning lum tgt k with
    | none => none
    | some (mn, mx) =>
      if inMargin tgt (lum k) then none
      else if (calibNext tgt (lum k) mn mx).1 + 5 > (calibNext tgt (lum k) mn mx).2 then
        none
      else some (calibNext tgt (lum k) mn mx)

/-- Helper: the bounds update keeps the interval ordered and at least
halves it. -/
theorem calibNext_bounds (tgt l : ℚ) (mn mx C : ℕ) (h : mn ≤ mx)
    (hd : mx - mn ≤ 2 * C) :
    (calibNext tgt l mn mx).1 ≤ (calibNext tgt l mn mx).2 ∧
    (calibNext tgt l mn mx).2 - (calibNext tgt l mn mx).1 ≤ C := by
  unfold calibNext; split <;> constructor <;> simp <;> omega

/-- Helper: whatever the loop returns has at most `fuel` entries (the loop
performs at most `fuel` iterations). -/
theorem calibLoop_length (lum : ℕ → ℚ) (tgt : ℚ) :
    ∀ fuel i mn mx l, calibLoop lum tgt fuel i mn mx = some l → l.length ≤ fuel := by
  intro fuel
  induction fuel with
  | zero => intro i mn mx l h; simp [calibLoop] at h
  | succ f ih =>
    intro i mn mx l h
    rw [calibLoop] at h
    split at h
    · obtain rfl : [(mn + mx) / 2] = l := by simpa using h
      simp
    · split at h
      · obtain rfl : [(mn + mx) / 2] = l := by simpa using h
        simp
      · obtain ⟨l', hl', rfl⟩ := Option.map_eq_some'.mp h
        have := ih _ _ _ _ hl'
        simpa using Nat.succ_le_succ this

/-- Helper: if the current interval is at most `2^(f+3)` wide, `f+1` units of
fuel are enough for the loop to stop on its own. -/
theorem calibLoop_isSome (lum : ℕ → ℚ) (tgt : ℚ) :
    ∀ f i mn mx, mn ≤ mx → mx - mn ≤ 2 ^ (f + 3) →
      (calibLoop lum tgt (f + 1) i mn mx).isSome := by
  intro f
  induction f with
  | zero =>
    intro i mn mx h hd
    rw [calibLoop]
    split
    · simp
    · obtain ⟨h1, h2⟩ := calibNext_bounds tgt (lum i) mn mx 4 h (by omega)
      rw [if_pos (by omega)]
      simp
  | succ f ih =>
    intro i mn mx h hd
    rw [calibLoop]
    split
    · simp
    · obtain ⟨h1, h2⟩ := calibNext_bounds tgt (lum i) mn mx (2 ^ (f + 3)) h
        (by rw [show f + 1 + 3 = (f + 3) + 1 from rfl, pow_succ] at hd; omega)
      split
      · simp
      · simpa using ih (i + 1) _ _ h1 h2

/-- C2: for every device behaviour `lum` and every target luminance, the
calibration binary search over `[30000, 3000000]` stops within 20 loop
iterations (hence at most 20 calibration captures: the returned list holds
the shutter speed of each capture performed), including when no attempt ever
lands in the ±1 margin. -/
theorem calibration_search_terminates_within_20 (lum : ℕ → ℚ) (tgt : ℚ) :
    ∃ speeds : List ℕ,
      calibLoop lum tgt 20 0 MIN_SHUTTER_SPEED MAX_SHUTTER_SPEED = some speeds ∧
      speeds.length ≤ 20 := by
  have h := calibLoop_isSome lum tgt 19 0 MIN_SHUTTER_SPEED MAX_SHUTTER_SPEED
    (by norm_num [MIN_SHUTTER_SPEED, MAX_SHUTTER_SPEED])
    (by norm_num [MIN_SHUTTER_SPEED, MAX_SHUTTER_SPEED])
  obtain ⟨l, hl⟩ := Option.isSome_iff_exists.mp h
  exact ⟨l, hl, calibLoop_length lum tgt 20 0 _ _ l hl⟩

/-- C3 (amended): the loop's convergence exit (camera.py line 206) is the
strict test `min_speed + 5 > max_speed`; whenever it holds at the end of an
iteration the loop stops (keeping the last attempted speed, by construction of
`calibLoop`). Equivalently, every state in which the loop is still running
satisfies `min_speed + 5 ≤ max_speed`. -/
theorem calibration_guard_strict_on_running_states (lum : ℕ → ℚ) (tgt : ℚ) :
    ∀ k mn mx, calibRunning lum tgt k = some (mn, mx) → mn + 5 ≤ mx := by
  intro k
  induction k with
  | zero =>
    intro mn mx h
    rw [calibRunning] at h
    obtain ⟨rfl, rfl⟩ : MIN_SHUTTER_SPEED = mn ∧ MAX_SHUTTER_SPEED = mx := by
      simpa using h
    norm_num [MIN_SHUTTER_SPEED, MAX_SHUTTER_SPEED]
  | succ k ih =>
    intro mn mx h
    rw [calibRunning] at h
    split at h
    · exact absurd h (by simp)
    · split at h
      · exact absurd h (by simp)
      · split at h
        · exact absurd h (by simp)
        · rename_i hguard
          injection h with h2
          rw [h2] at hguard
          simp only [Prod.fst, Prod.snd, gt_iff_lt, not_lt] at hguard
          omega

/-- A device that always measures luminance 10: with target 0 every attempt is
above the margin, so the loop halves the upper bound every iteration. -/
def constantTen : ℕ → ℚ := fun _ => 10

/-- Helper: with target 0, a measurement of 10 never satisfies the margin. -/
theorem calibTen_not_margin (k : ℕ) : ¬ inMargin 0 (constantTen k) := by
  norm_num [inMargin, constantTen, TARGET_LUMINOSITY_MARGIN]

/-- Helper: with target 0 a measurement of 10 is too bright, so the bounds
update drops the upper bound to the midpoint. -/
theorem calibTen_next (k mn mx : ℕ) :
    calibNext 0 (constantTen k) mn mx = (mn, (mn + mx) / 2) := by
  rw [calibNext, if_neg (by norm_num [constantTen, TARGET_LUMINOSITY_MARGIN])]

/-- Helper: one iteration of the loop under the always-10 device. -/
theorem calibTen_step (k mn mx : ℕ) (h : calibRunning constantTen 0 k = some (mn, mx))
    (hg : mn + 5 ≤ (mn + mx) / 2) :
    calibRunning constantTen 0 (k + 1) = some (mn, (mn + mx) / 2) := by
  rw [calibRunning, h]
  show (if inMargin 0 (constantTen k) then none
    else if (calibNext 0 (constantTen k) mn mx).1 + 5 > (calibNext 0 (constantTen k) mn mx).2
      then none
    else some (calibNext 0 (constantTen k) mn mx)) = some (mn, (mn + mx) / 2)
  rw [if_neg (calibTen_not_margin k), calibTen_next,
    if_neg (show ¬ mn + 5 > (mn + mx) / 2 by omega)]

/-- C3 counterexample: a reachable loop state where `min_speed + 5 ≥ max_speed`
holds at the end of an iteration (iteration 19 of the always-10 device with
target 0 ends with bounds (30000, 30005)) and yet the loop has not stopped
(`calibRunning` is still `some`), because the code's exit test on camera.py
line 206 is the strict `min_speed + 5 > max_speed`. -/
theorem calibration_converged_bounds_do_not_stop :
    calibRunning constantTen 0 19 = some (30000, 30005) ∧ (30005 : ℕ) ≤ 30000 + 5 := by
  have h0 : calibRunning constantTen 0 0 = some (30000, 3000000) := rfl
  have h1 : calibRunning constantTen 0 1 = some (30000, 1515000) := by
    simpa using calibTen_step 0 30000 3000000 h0 (by norm_num)
  have h2 : calibRunning constantTen 0 2 = some (30000, 772500) := by
    simpa using calibTen_step 1 30000 1515000 h1 (by norm_num)
  have h3 : calibRunning constantTen 0 3 = some (30000, 401250) := by
    simpa using calibTen_step 2 30000 772500 h2 (by norm_num)
  have h4 : calibRunning constantTen 0 4 = some (30000, 215625) := by
    simpa using calibTen_step 3 30000 401250 h3 (by norm_num)
  have h5 : calibRunning constantTen 0 5 = some (30000, 122812) := by
    simpa using calibTen_step 4 30000 215625 h4 (by norm_num)
  have h6 : calibRunning constantTen 0 6 = some (30000, 76406) := by
    simpa using calibTen_step 5 30000 122812 h5 (by norm_num)
  have h7 : calibRunning constantTen 0 7 = some (30000, 53203) := by
    simpa using calibTen_step 6 30000 76406 h6 (by norm_num)
  have h8 : calibRunning constantTen 0 8 = some (30000, 41601) := by
    simpa using calibTen_step 7 30000 53203 h7 (by norm_num)
  have h9 : calibRunning constantTen 0 9 = some (30000, 35800) := by
    simpa using calibTen_step 8 30000 41601 h8 (by norm_num)
  have h10 : calibRunning constantTen 0 10 = some (30000, 32900) := by
    simpa using calibTen_step 9 30000 35800 h9 (by norm_num)
  have h11 : calibRunning constantTen 0 11 = some (30000, 31450) := by
    simpa using calibTen_step 10 30000 32900 h10 (by norm_num)
  have h12 : calibRunning constantTen 0 12 = some (30000, 30725) := by
    simpa using calibTen_step 11 30000 31450 h11 (by norm_num)
  have h13 : calibRunning constantTen 0 13 = some (30000, 30362) := by
    simpa using calibTen_step 12 30000 30725 h12 (by norm_num)
  have h14 : calibRunning constantTen 0 14 = some (30000, 30181) := by
    simpa using calibTen_step 13 30000 30362 h13 (by norm_num)
  have h15 : calibRunning constantTen 0 15 = some (30000, 30090) := by
    simpa using calibTen_step 14 30000 30181 h14 (by norm_num)
  have h16 : calibRunning constantTen 0 16 = some (30000, 30045) := by
    simpa using calibTen_step 15 30000 30090 h15 (by norm_num)
  have h17 : calibRunning constantTen 0 17 = some (30000, 30022) := by
    simpa using calibTen_step 16 30000 30045 h16 (by norm_num)
  have h18 : calibRunning constantTen 0 18 = some (30000, 30011) := by
    simpa using calibTen_step 17 30000 30022 h17 (by norm_num)
  have h19 : calibRunning constantTen 0 19 = some (30000, 30005) := by
    simpa using calibTen_step 18 30000 30011 h18 (by norm_num)
  exact ⟨h19, by norm_num⟩

/-- C3 witness: `calibration_guard_strict_on_running_states` applied to the
running state reached after one iteration of the always-10 device. -/
theorem calibration_guard_strict_witness : (30000 : ℕ) + 5 ≤ 1515000 := by
  apply calibration_guard_strict_on_running_states constantTen 0 1 30000 1515000
  simpa using calibTen_step 0 30000 3000000 rfl (by norm_num)

/-- Outcome of one `shoot_picture` call: the shutter speed passed to each
`_shoot_picture` capture in order (`none` = no explicit shutter speed, i.e.
the default-framerate shot of camera.py line 153) and the uncaught Python
exception, if one escaped. -/
structure ShootOutcome where
  captures : List (Option ℤ)
  error : Option String
deriving DecidableEq

/-- camera.py lines 148-208, `Camera.shoot_picture`, with the capture device
abstracted by the luminance oracle `lum` (capture number `n` measures
luminance `lum n`). First capture at default settings; if its luminance is at
least `MINIMUM_DAYLIGHT_LUMINANCE` the method returns. Otherwise:
* non-calibration mode computes `SHUTTER_SPEED_FROM_LUMINANCE` of the first
  luminance (which raises `ZeroDivisionError` on an all-black frame) and
  reshoots exactly once at that speed, accepting the result unconditionally;
* calibration mode runs the binary-search loop (`calibLoop`; its captures
  measure `lum 1`, `lum 2`, …). Fuel 20 never runs out (see the
  termination theorem), so the `none` fallback arm is dead code. -/
def shoot_picture (calibrate : Bool) (lum : ℕ → ℚ) (a b : ℤ) : ShootOutcome :=
  if MINIMUM_DAYLIGHT_LUMINANCE ≤ lum 0 then ⟨[none], none⟩
  else if calibrate = false then
    match SHUTTER_SPEED_FROM_LUMINANCE (lum 0) a b with
    | .error e => ⟨[none], some e⟩
    | .ok ss => ⟨[none, ss], none⟩
  else
    match calibLoop (fun i => lum (i + 1)) (TARGET_LUMINANCE (lum 0)) 20 0
        MIN_SHUTTER_SPEED MAX_SHUTTER_SPEED with
    | some speeds => ⟨none :: speeds.map (fun s => some (s : ℤ)), none⟩
    | none => ⟨[none], none⟩

/-- C6 counterexample: the claim quantifies over every invocation with first
luminance < 60, but on an all-black first frame (luminance exactly 0, which is
< 60) the non-calibration path performs no second capture at all: it dies with
an uncaught `ZeroDivisionError` after the single capture. -/
theorem shoot_picture_black_frame_not_two_captures :
    (0 : ℚ) < 60 ∧
    shoot_picture false (fun _ => 0) 600000 60000 =
      ⟨[none], some "ZeroDivisionError"⟩ ∧
    (⟨[none], some "ZeroDivisionError"⟩ : ShootOutcome).captures.length = 1 := by
  refine ⟨by norm_num, ?_, rfl⟩
  rw [shoot_picture, if_neg (by norm_num [MINIMUM_DAYLIGHT_LUMINANCE]), if_pos rfl,
    SHUTTER_SPEED_FROM_LUMINANCE, if_pos (by norm_num [MINIMUM_DAYLIGHT_LUMINANCE]),
    if_pos rfl]

/-- C6 (amended): if the first capture has luminance ≥ 60 then exactly one
capture happens and it is accepted (in both modes); if the first capture has
luminance strictly between 0 and 60 and calibration is off, exactly one more
capture happens, at the corrected speed `int(a / lum + b)`, and it is accepted
unconditionally — the outcome does not depend on the second capture's
luminance `lum 1` at all, and no error escapes. -/
theorem shoot_picture_capture_counts (calibrate : Bool) (lum : ℕ → ℚ) (a b : ℤ) :
    (60 ≤ lum 0 → shoot_picture calibrate lum a b = ⟨[none], none⟩) ∧
    (0 < lum 0 → lum 0 < 60 →
      shoot_picture false lum a b =
        ⟨[none, some (pyInt ((a : ℚ) / lum 0 + (b : ℚ)))], none⟩) := by
  constructor
  · intro h
    rw [shoot_picture, if_pos (by rw [MINIMUM_DAYLIGHT_LUMINANCE]; exact h)]
  · intro h0 h60
    rw [shoot_picture, if_neg (by rw [MINIMUM_DAYLIGHT_LUMINANCE]; exact not_le.2 h60),
      if_pos rfl, SHUTTER_SPEED_FROM_LUMINANCE,
      if_pos (by rw [MINIMUM_DAYLIGHT_LUMINANCE]; exact h60), if_neg h0.ne']

/-- C6 witness: `shoot_picture_capture_counts` at a bright first frame
(luminance 70: one capture) and at a dark one (luminance 30, calibration off:
two captures, the second at 600000/30 + 60000 = 80000 µs). -/
theorem shoot_picture_capture_counts_witness :
    shoot_picture true (fun _ => 70) 600000 60000 = ⟨[none], none⟩ ∧
    shoot_picture false (fun _ => 30) 600000 60000 =
      ⟨[none, some 80000], none⟩ := by
  constructor
  · exact (shoot_picture_capture_counts true (fun _ => 70) 600000 60000).1 (by norm_num)
  · have h := (shoot_picture_capture_counts false (fun _ => 30) 600000 60000).2
      (by norm_num) (by norm_num)
    rw [h]
    norm_num [pyInt]

/-- C10: on an all-black first frame (luminance exactly 0) with calibration
off, `shoot_picture` evaluates `a/lum` with `lum = 0`; the division is
unguarded, so `ZeroDivisionError` propagates to the caller and no second
capture is taken (for every device behaviour with `lum 0 = 0` and every
constants a, b). -/
theorem black_frame_division_by_zero (lum : ℕ → ℚ) (a b : ℤ) (h : lum 0 = 0) :
    shoot_picture false lum a b = ⟨[none], some "ZeroDivisionError"⟩ := by
  rw [shoot_picture, if_neg (by rw [h, MINIMUM_DAYLIGHT_LUMINANCE]; norm_num),
    if_pos rfl, SHUTTER_SPEED_FROM_LUMINANCE,
    if_pos (by rw [h, MINIMUM_DAYLIGHT_LUMINANCE]; norm_num), if_pos h]

/-- C10 witness: `black_frame_division_by_zero` on the constant-0 device. -/
theorem black_frame_division_by_zero_witness :
    shoot_picture false (fun _ => 0) 123 456 = ⟨[none], some "ZeroDivisionError"⟩ :=
  black_frame_division_by_zero (fun _ => 0) 123 456 rfl

/-- Python `str.split("_")`: cut at every underscore, keeping empty pieces
(`"a__b"` gives three pieces, `""` gives one empty piece). `acc` holds the
current piece, reversed. -/
def splitUnderscore : List Char → List Char → List (List Char)
  | [], acc => [acc.reverse]
  | c :: rest, acc =>
    if c = '_' then acc.reverse :: splitUnderscore rest []
    else splitUnderscore rest (c :: acc)

/-- camera.py line 342: `position.lower().split("_")` (the position labels are
ASCII, for which `Char.toLower` agrees with Python `str.lower`). -/
def pyLowerSplit (s : String) : List (List Char) :=
  splitUnderscore (s.data.map Char.toLower) []

/-- The slot dictionary of one configured overlay, reduced to the fields the
skip logic of `Overlay.__init__` reads: `data.get("type")` when it is a
string (`none` when absent or not a string), and the `over_the_picture` flag
(camera.py line 373 defaults it to `False`). -/
structure SlotData where
  otype : Option String
  over_the_picture : Bool
deriving DecidableEq

/-- An overlay that survived `Overlay.__init__` with a rendered image:
its parsed position, flag, and the rendered image's pixel size. -/
structure RenderedOverlay where
  vertical_position : String
  horizontal_position : String
  over_the_picture : Bool
  width : ℕ
  height : ℕ
deriving DecidableEq

/-- camera.py lines 331-385, `Overlay.__init__`, as the rendered overlay a
slot contributes to `process_picture` (or `none` when the slot is skipped).
The rasterisation itself (PIL text/image drawing) is abstracted by the oracle
`render`, which returns the rendered image's size, or `none` when rendering
fails and `rendered_image` stays `None`.

All failure modes end with the slot contributing nothing, matching the source:
* a position that does not split into exactly two parts, or whose parts are
  not top/bottom and left/center/right, raises `ValueError` (line 348); the
  handler itself then raises `TypeError` (line 350 calls the one-argument
  `log` with two arguments), which `process_picture` catches at line 285;
* a missing, non-string or empty `type` returns early (line 360) with
  `rendered_image` and `defaults` unset, so reading `overlay.rendered_image`
  at line 282 recurses through `__getattr__` into `RecursionError`, which
  `process_picture` catches;
* an unrecognised `type` hits the undefined name `kind` at line 383
  (`NameError`), again caught by `process_picture`. -/
def overlayInit (render : String → SlotData → Option (ℕ × ℕ)) (position : String)
    (data : SlotData) : Option RenderedOverlay :=
  match pyLowerSplit position with
  | [v, h] =>
    if (v = "top".data ∨ v = "bottom".data) ∧
        (h = "left".data ∨ h = "center".data ∨ h = "right".data) then
      match data.otype with
      | none => none
      | some t =>
        if t = "" then none
        else if t = "text" ∨ t = "image" then
          match render position data with
          | some wh =>
            some ⟨String.mk v, String.mk h, data.over_the_picture, wh.1, wh.2⟩
          | none => none
        else none
    else none
  | _ => none

/-- camera.py lines 398-427, `Overlay.compute_position`: the (x, y) paste
position of a rendered overlay on the canvas. `x` and `y` start at 0 and are
only changed by the matching `if`/`elif` branches. The `center` branch is
Python `int((image_width - overlay_width)/2)`: float division then truncation
toward zero. -/
def compute_position (o : RenderedOverlay)
    (image_width image_height border_top border_bottom : ℕ) : ℤ × ℤ :=
  (if o.horizontal_position = "left" then 0
   else if o.horizontal_position = "right" then (image_width : ℤ) - (o.width : ℤ)
   else if o.horizontal_position = "center" then
     pyInt ((((image_width : ℤ) - (o.width : ℤ) : ℤ) : ℚ) / 2)
   else 0,
   if o.vertical_position = "top" then
     (if o.over_the_picture then (border_top : ℤ) else 0)
   else if o.vertical_position = "bottom" then
     (if o.over_the_picture then (image_height : ℤ) - (o.height : ℤ) - (border_bottom : ℤ)
      else (image_height : ℤ) - (o.height : ℤ))
   else 0)

/-- camera.py lines 290-299: the border accumulation loop, carried out from an
accumulator pair `(border_top, border_bottom)`. An overlay that is not
`over_the_picture` contributes its height to the border of its edge
(`vertical_position == "top"` to the top border, anything else to the
bottom). -/
def bordersLoopFrom (acc : ℕ × ℕ) : List RenderedOverlay → ℕ × ℕ
  | [] => acc
  | o :: rest =>
    bordersLoopFrom
      (if o.over_the_picture = false then
        (if o.vertical_position = "top" then (max acc.1 o.height, acc.2)
         else (acc.1, max acc.2 o.height))
      else acc) rest

/-- camera.py lines 290-299 with the initial `border_top = border_bottom = 0`. -/
def bordersLoop (rendered : List RenderedOverlay) : ℕ × ℕ :=
  bordersLoopFrom (0, 0) rendered

/-- The specification's description of the top border: the maximum rendered
height among overlays anchored `top` whose `over_the_picture` flag is false,
or 0 when there are none. -/
def claimTopBorder (rendered : List RenderedOverlay) : ℕ :=
  ((rendered.filter (fun o => o.vertical_position == "top" && !o.over_the_picture)).map
    (fun o => o.height)).foldr max 0

/-- The specification's description of the bottom border (see
`claimTopBorder`). -/
def claimBottomBorder (rendered : List RenderedOverlay) : ℕ :=
  ((rendered.filter (fun o => o.vertical_position == "bottom" && !o.over_the_picture)).map
    (fun o => o.height)).foldr max 0

/-- The composited result of `process_picture`: canvas size, where the photo
is pasted, and each overlay with its computed paste position. -/
structure Canvas where
  width : ℕ
  height : ℕ
  photo_position : ℕ × ℕ
  pastes : List (RenderedOverlay × ℤ × ℤ)
deriving DecidableEq

/-- camera.py lines 263-322, `Camera.process_picture`: build the rendered
overlays (slots whose `Overlay` construction or rendering fails contribute
nothing and processing continues, lines 278-287), accumulate the borders,
allocate the canvas `(photo.width, photo.height + border_top + border_bottom)`,
paste the photo at `(0, border_top)` and each overlay at its
`compute_position`. `overlays` is the configuration's position-label → slot
mapping in insertion order. -/
def process_picture (render : String → SlotData → Option (ℕ × ℕ))
    (photo_width photo_height : ℕ) (overlays : List (String × SlotData)) : Canvas :=
  let rendered := overlays.filterMap (fun slot => overlayInit render slot.1 slot.2)
  let borders := bordersLoop rendered
  let total_height := photo_height + borders.1 + borders.2
  { width := photo_width
    height := total_height
    photo_position := (0, borders.1)
    pastes := rendered.map (fun o =>
      (o, compute_position o photo_width total_height borders.1 borders.2)) }

/-- The claim's notion of a well-formed position label:
`"<top|bottom>_<left|center|right>"` up to case. -/
def validPositionLabel (position : String) : Bool :=
  match pyLowerSplit position with
  | [v, h] =>
    decide ((v = "top".data ∨ v = "bottom".data) ∧
      (h = "left".data ∨ h = "center".data ∨ h = "right".data))
  | _ => false

/-- The claim's notion of a missing or unrecognized overlay type: absent or
non-string (`none`), empty (falsy for `data.get("type")` at line 357), or
neither "text" nor "image". -/
def missingOrUnrecognizedType : Option String → Bool
  | none => true
  | some t => t == "" || !(t == "text" || t == "image")

/-- A slot the claim C9 quantifies over: malformed position label, or missing
or unrecognized type. -/
def badSlot (position : String) (data : SlotData) : Bool :=
  !validPositionLabel position || missingOrUnrecognizedType data.otype

/-- C7 counterexample: for the `center` position the code computes
`int((image_width - overlay_width)/2)`, truncation toward zero — not the
integer floor the claim states. With a 13-pixel-wide overlay on a 10-pixel
canvas the code pastes at x = -1 while the floor is -2. -/
theorem compute_position_center_not_floor :
    (compute_position ⟨"top", "center", false, 13, 5⟩ 10 20 0 0).1 = -1 ∧
    (⌊(((10 : ℤ) - (13 : ℤ) : ℤ) : ℚ) / 2⌋ : ℤ) = -2 ∧ ((-1 : ℤ) ≠ -2) := by
  refine ⟨?_, by norm_num, by decide⟩
  rw [show compute_position ⟨"top", "center", false, 13, 5⟩ 10 20 0 0 =
    (pyInt ((((10 : ℤ) - (13 : ℤ) : ℤ) : ℚ) / 2),
      if (false : Bool) then (0 : ℤ) else 0) from by simp [compute_position]]
  norm_num [pyInt]

/-- C7 (amended): `compute_position` resolves `left` to x = 0, `right` to
x = canvas_width − overlay_width, and `center` to
x = (canvas_width − overlay_width)/2 truncated toward zero — which equals the
integer floor whenever the overlay is no wider than the canvas; vertically,
`top` resolves to y = border_top with `over_the_picture` and y = 0 without,
`bottom` to y = canvas_height − overlay_height − border_bottom with
`over_the_picture` and y = canvas_height − overlay_height without. -/
theorem compute_position_resolution (vp hp : String) (otp : Bool)
    (ow oh w h bt bb : ℕ) :
    (compute_position ⟨vp, "left", otp, ow, oh⟩ w h bt bb).1 = 0 ∧
    (compute_position ⟨vp, "right", otp, ow, oh⟩ w h bt bb).1 = (w : ℤ) - (ow : ℤ) ∧
    (compute_position ⟨vp, "center", otp, ow, oh⟩ w h bt bb).1 =
      pyInt ((((w : ℤ) - (ow : ℤ) : ℤ) : ℚ) / 2) ∧
    (ow ≤ w → (compute_position ⟨vp, "center", otp, ow, oh⟩ w h bt bb).1 =
      ⌊(((w : ℤ) - (ow : ℤ) : ℤ) : ℚ) / 2⌋) ∧
    (compute_position ⟨"top", hp, true, ow, oh⟩ w h bt bb).2 = (bt : ℤ) ∧
    (compute_position ⟨"top", hp, false, ow, oh⟩ w h bt bb).2 = 0 ∧
    (compute_position ⟨"bottom", hp, true, ow, oh⟩ w h bt bb).2 =
      (h : ℤ) - (oh : ℤ) - (bb : ℤ) ∧
    (compute_position ⟨"bottom", hp, false, ow, oh⟩ w h bt bb).2 =
      (h : ℤ) - (oh : ℤ) := by
  refine ⟨by simp [compute_position], by simp [compute_position],
    by simp [compute_position], ?_, by simp [compute_position],
    by simp [compute_position], by simp [compute_position],
    by simp [compute_position]⟩
  intro how
  have hz : (0 : ℤ) ≤ (w : ℤ) - (ow : ℤ) := by omega
  have h0 : (0 : ℚ) ≤ (((w : ℤ) - (ow : ℤ) : ℤ) : ℚ) / 2 :=
    div_nonneg (by exact_mod_cast hz) (by norm_num)
  have hcenter : (compute_position ⟨vp, "center", otp, ow, oh⟩ w h bt bb).1 =
      pyInt ((((w : ℤ) - (ow : ℤ) : ℤ) : ℚ) / 2) := by simp [compute_position]
  rw [hcenter, pyInt_eq_floor_of_nonneg h0]

/-- C7 witness: `compute_position_resolution` at a 4-pixel overlay centered on
a 10-pixel canvas (x = ⌊6/2⌋ = 3) and at a top-anchored overlay pasted over a
7-pixel top border without `over_the_picture` (y = 0). -/
theorem compute_position_resolution_witness :
    (compute_position ⟨"x", "center", false, 4, 4⟩ 10 10 0 0).1 = 3 ∧
    (compute_position ⟨"top", "left", false, 4, 4⟩ 10 10 7 0).2 = 0 := by
  constructor
  · have h := (compute_position_resolution "x" "left" false 4 4 10 10 0 0).2.2.2.1
      (by norm_num)
    rw [h]; norm_num
  · exact (compute_position_resolution "top" "left" false 4 4 10 10 7 0).2.2.2.2.2.1

/-- Helper: every rendered overlay is anchored `top` or `bottom` (the position
validation in `Overlay.__init__` admits nothing else). -/
theorem overlayInit_vpos (render : String → SlotData → Option (ℕ × ℕ))
    (position : String) (data : SlotData) (o : RenderedOverlay)
    (h : overlayInit render position data = some o) :
    o.vertical_position = "top" ∨ o.vertical_position = "bottom" := by
  unfold overlayInit at h
  split at h
  · rename_i v hh heq
    split at h
    · rename_i hcond
      split at h
      · simp at h
      · split at h
        · simp at h
        · split at h
          · split at h
            · rename_i wh hrender
              obtain rfl := (Option.some.injEq _ _).mp h
              rcases hcond.1 with hv | hv <;> rw [hv]
              · exact Or.inl rfl
              · exact Or.inr rfl
            · simp at h
          · simp at h
    · simp at h
  · simp at h

/-- Helper: the source's border loop computes the specification's maxima, for
overlay lists whose vertical positions are only `top` or `bottom`. -/
theorem bordersLoopFrom_eq :
    ∀ (rendered : List RenderedOverlay) (a b : ℕ),
      (∀ o ∈ rendered, o.vertical_position = "top" ∨ o.vertical_position = "bottom") →
      bordersLoopFrom (a, b) rendered =
        (max a (claimTopBorder rendered), max b (claimBottomBorder rendered)) := by
  intro rendered
  induction rendered with
  | nil => intro a b _; simp [bordersLoopFrom, claimTopBorder, claimBottomBorder]
  | cons o rest ih =>
    intro a b h
    have ho := h o (by simp)
    have hrest : ∀ o' ∈ rest, o'.vertical_position = "top" ∨
        o'.vertical_position = "bottom" := fun o' ho' => h o' (by simp [ho'])
    rw [bordersLoopFrom]
    by_cases hov : o.over_the_picture = false
    · by_cases htop : o.vertical_position = "top"
      · rw [if_pos hov, if_pos htop]
        show bordersLoopFrom (max a o.height, b) rest = _
        rw [ih _ _ hrest]
        have ht : claimTopBorder (o :: rest) = max o.height (claimTopBorder rest) := by
          simp [claimTopBorder, htop, hov]
        have hb : claimBottomBorder (o :: rest) = claimBottomBorder rest := by
          have : o.vertical_position ≠ "bottom" := by rw [htop]; simp
          simp [claimBottomBorder, this]
        rw [ht, hb]
        refine Prod.ext ?_ rfl
        show max (max a o.height) (claimTopBorder rest) = max a (max o.height (claimTopBorder rest))
        omega
      · have hbot : o.vertical_position = "bottom" := ho.resolve_left htop
        rw [if_pos hov, if_neg htop]
        show bordersLoopFrom (a, max b o.height) rest = _
        rw [ih _ _ hrest]
        have ht : claimTopBorder (o :: rest) = claimTopBorder rest := by
          simp [claimTopBorder, htop]
        have hb : claimBottomBorder (o :: rest) = max o.height (claimBottomBorder rest) := by
          simp [claimBottomBorder, hbot, hov]
        rw [ht, hb]
        refine Prod.ext rfl ?_
        show max (max b o.height) (claimBottomBorder rest) = max b (max o.height (claimBottomBorder rest))
        omega
    · have hov' : o.over_the_picture = true := by
        cases hx : o.over_the_picture
        · exact absurd hx hov
        · rfl
      rw [if_neg hov, ih _ _ hrest]
      have ht : claimTopBorder (o :: rest) = claimTopBorder rest := by
        simp [claimTopBorder, hov']
      have hb : claimBottomBorder (o :: rest) = claimBottomBorder rest := by
        simp [claimBottomBorder, hov']
      rw [ht, hb]

/-- Helper: a slot with a malformed position label or a missing/unrecognized
type contributes no rendered overlay. -/
theorem overlayInit_none_of_badSlot (render : String → SlotData → Option (ℕ × ℕ))
    (position : String) (data : SlotData) (h : badSlot position data = true) :
    overlayInit render position data = none := by
  unfold badSlot at h
  unfold overlayInit
  split
  · rename_i v hh heq
    by_cases hc : (v = "top".data ∨ v = "bottom".data) ∧
        (hh = "left".data ∨ hh = "center".data ∨ hh = "right".data)
    · have hvalid : validPositionLabel position = true := by
        unfold validPositionLabel
        rw [heq]
        exact decide_eq_true hc
      rw [hvalid] at h
      simp only [Bool.not_true, Bool.false_or] at h
      rw [if_pos hc]
      cases hot : data.otype with
      | none => rfl
      | some t =>
        rw [hot] at h
        unfold missingOrUnrecognizedType at h
        by_cases ht : t = ""
        · simp [ht]
        · rw [Bool.or_eq_true] at h
          rcases h with h | h
          · exact absurd (by simpa using h) ht
          · have h2 : ¬ (t = "text" ∨ t = "image") := by simpa using h
            simp [ht, h2]
    · rw [if_neg hc]
  · rfl

/-- C9: a slot whose position label is malformed, or whose type is missing or
unrecognized, contributes no rendered overlay and does not abort the other
slots: `process_picture` produces a canvas identical to the one for the same
configuration with that slot removed — for every rendering behaviour, photo
size and surrounding slots. -/
theorem malformed_slot_skipped (render : String → SlotData → Option (ℕ × ℕ))
    (photo_width photo_height : ℕ) (pre post : List (String × SlotData))
    (position : String) (data : SlotData) (h : badSlot position data = true) :
    process_picture render photo_width photo_height (pre ++ (position, data) :: post) =
      process_picture render photo_width photo_height (pre ++ post) := by
  have hnone : overlayInit render position data = none :=
    overlayInit_none_of_badSlot render position data h
  have hlist : List.filterMap (fun slot : String × SlotData => overlayInit render slot.1 slot.2)
      (pre ++ (position, data) :: post) =
      List.filterMap (fun slot : String × SlotData => overlayInit render slot.1 slot.2)
        (pre ++ post) := by
    simp [hnone]
  unfold process_picture
  rw [hlist]

/-- C9 witness: `malformed_slot_skipped` on a configuration holding only the
slot `"diagonal_left"` (a malformed label): the canvas equals the one of the
empty configuration. -/
theorem malformed_slot_skipped_witness :
    process_picture (fun _ _ => some (5, 5)) 64 48
        [("diagonal_left", ⟨some "text", false⟩)] =
      process_picture (fun _ _ => some (5, 5)) 64 48 [] :=
  malformed_slot_skipped (fun _ _ => some (5, 5)) 64 48 [] []
    "diagonal_left" ⟨some "text", false⟩ (by decide)

/-- C8: the canvas allocated by `process_picture` has the photo's width and
height photo_height + border_top + border_bottom, where border_top
(resp. border_bottom) is the maximum rendered height among the successfully
rendered overlays anchored top (resp. bottom) whose `over_the_picture` flag is
false, or 0 if there are none; the canvas is never shorter than the photo, and
the photo is pasted at (0, border_top). -/
theorem process_picture_canvas_geometry (render : String → SlotData → Option (ℕ × ℕ))
    (photo_width photo_height : ℕ) (overlays : List (String × SlotData)) :
    (process_picture render photo_width photo_height overlays).width = photo_width ∧
    (process_picture render photo_width photo_height overlays).height =
      photo_height +
        claimTopBorder (overlays.filterMap (fun slot => overlayInit render slot.1 slot.2)) +
        claimBottomBorder (overlays.filterMap (fun slot => overlayInit render slot.1 slot.2)) ∧
    (process_picture render photo_width photo_height overlays).photo_position =
      (0, claimTopBorder (overlays.filterMap (fun slot => overlayInit render slot.1 slot.2))) ∧
    photo_height ≤ (process_picture render photo_width photo_height overlays).height := by
  have hvb : ∀ o ∈ overlays.filterMap (fun slot => overlayInit render slot.1 slot.2),
      o.vertical_position = "top" ∨ o.vertical_position = "bottom" := by
    intro o ho
    obtain ⟨slot, hmem, hsome⟩ := List.mem_filterMap.mp ho
    exact overlayInit_vpos render slot.1 slot.2 o hsome
  have hb : bordersLoop (overlays.filterMap (fun slot => overlayInit render slot.1 slot.2)) =
      (claimTopBorder (overlays.filterMap (fun slot => overlayInit render slot.1 slot.2)),
        claimBottomBorder (overlays.filterMap (fun slot => overlayInit render slot.1 slot.2))) := by
    rw [bordersLoop, bordersLoopFrom_eq _ 0 0 hvb]
    simp
  refine ⟨rfl, ?_, ?_, ?_⟩
  · simp only [process_picture, hb]
  · simp only [process_picture, hb]
  · simp only [process_picture, hb]
    omega

/-- C2 witness: `calibration_search_terminates_within_20` on the always-10
device with target 0, whose attempts never land in the margin. -/
theorem calibration_search_terminates_within_20_witness :
    ∃ speeds : List ℕ,
      calibLoop constantTen 0 20 0 MIN_SHUTTER_SPEED MAX_SHUTTER_SPEED = some speeds ∧
      speeds.length ≤ 20 :=
  calibration_search_terminates_within_20 constantTen 0

/-- C8 witness: `process_picture_canvas_geometry` on a 64×48 photo with no
overlays. -/
theorem process_picture_canvas_geometry_witness :
    (process_picture (fun _ _ => some (5, 5)) 64 48 []).width = 64 ∧
    48 ≤ (process_picture (fun _ _ => some (5, 5)) 64 48 []).height := by
  obtain ⟨h1, -, -, h4⟩ := process_picture_canvas_geometry (fun _ _ => some (5, 5)) 64 48 []
  exact ⟨h1, h4⟩
